import Mathlib

/-!
Shallow embedding of `src/ChatBot/main.py`, a single-page Streamlit chat UI.

The page keeps a session-scoped transcript (`st.session_state.chat_history`,
a list of `{'human': ..., 'AI': ...}` dicts), a start timestamp
(`st.session_state.start_time`), the text-area content
(`st.session_state.user_input`, key `user_input`) and the persona selection
(`st.session_state.selected_persona`).  Each UI action (send, voice input,
new topic, clear history, persona change) is modelled as a pure step on an
explicit state; the external chat-completion and speech-recognition services
are modelled by passing their outcome as a parameter of the step.
-/

namespace ChatBot

/-- One exchanged turn: entries of `st.session_state.chat_history` are
dicts with keys `human` (the submitted input) and `AI` (the response). -/
structure Turn where
  human : String
  AI : String
deriving DecidableEq, Repr

/-- Python whitespace characters stripped by `str.strip()` (the CPython
`Py_UNICODE_ISSPACE` set): U+0009..U+000D, U+001C..U+001F, space, U+0085,
U+00A0, U+1680, U+2000..U+200A, U+2028, U+2029, U+202F, U+205F, U+3000. -/
def isPyWhitespace (c : Char) : Bool :=
  let n := c.toNat
  (0x09 ≤ n && n ≤ 0x0d) || n = 0x20 ||
  (0x1c ≤ n && n ≤ 0x1f) || n = 0x85 || n = 0xa0 ||
  n = 0x1680 || (0x2000 ≤ n && n ≤ 0x200a) ||
  n = 0x2028 || n = 0x2029 || n = 0x202f || n = 0x205f || n = 0x3000

/-- Python `str.strip()`: drop leading and trailing whitespace. -/
def pyStrip (s : String) : String :=
  String.mk (((s.data.dropWhile isPyWhitespace).reverse.dropWhile isPyWhitespace).reverse)

/-- Outcome of one `conversation(input)` call to the chat-completion chain:
either `response['response']` or a raised exception rendered by `str(e)`. -/
inductive ChatResult where
  | success (response : String)
  | failure (err : String)
deriving DecidableEq, Repr

/-- Outcome of one microphone capture attempt inside `get_voice_input`:
recognized text, or one of the three handled `speech_recognition` errors. -/
inductive VoiceOutcome where
  | success (text : String)
  | waitTimeout
  | unknownValue
  | requestError (e : String)
deriving DecidableEq, Repr

/-- `get_voice_input()`: returns recognized text on success; each of the
three handled failure modes (`sr.WaitTimeoutError`, `sr.UnknownValueError`,
`sr.RequestError`) falls through to `return ""` after showing a message.
The function is total: no exception escapes the adapter. -/
def get_voice_input : VoiceOutcome → String
  | .success t => t
  | .waitTimeout => ""
  | .unknownValue => ""
  | .requestError _ => ""

/-- The Streamlit session state touched by `main`:
`initialize_session_state` sets `chat_history`, `total_messages` and
`start_time`; the text area binds `user_input`; the sidebar selectbox
binds `selected_persona`.  Timestamps (`datetime.now()`) are Nat ticks. -/
structure SessionState where
  chat_history : List Turn
  total_messages : Nat
  start_time : Option Nat
  user_input : String
  selected_persona : String
deriving DecidableEq, Repr

/-- `initialize_session_state()`: empty history, zero messages, no start
time; the text area starts empty and the persona selectbox at Default. -/
def initial_state : SessionState :=
  { chat_history := [], total_messages := 0, start_time := none,
    user_input := "", selected_persona := "Default" }

/-- The `Clear Chat History` button handler: sets `chat_history = []`,
`start_time = None`, `user_input = ""` (other state untouched). -/
def clearClick (s : SessionState) : SessionState :=
  { s with chat_history := [], start_time := none, user_input := "" }

/-- The `Send` button handler.  Guard: `user_input.strip()` truthy.
Then `start_time` is set to now if unset, `conversation(user_input)` is
invoked, and on success `{'human': user_input, 'AI': response}` is
appended; on exception `st.error` shows an inline message and the
transcript is left as it was.  Returns the new state together with the
inline error message, if one was rendered. -/
def sendClick (now : Nat) (s : SessionState) (chat : ChatResult) :
    SessionState × Option String :=
  if pyStrip s.user_input = "" then (s, none)
  else
    let s1 := if s.start_time = none then { s with start_time := some now } else s
    match chat with
    | .success resp =>
        ({ s1 with chat_history := s1.chat_history ++ [⟨s.user_input, resp⟩] }, none)
    | .failure err => (s1, some ("⚠️ Error: " ++ err))

/-- The `Use Voice Input` button handler.  `get_voice_input()` is called;
the guard `if voice_input:` skips everything on the empty string.  On a
nonempty capture, `conversation(voice_input)` is invoked and on success
the pair is appended; on exception an inline error is shown and the
transcript is left as it was.  `start_time` is never touched here. -/
def voiceClick (s : SessionState) (o : VoiceOutcome) (chat : ChatResult) :
    SessionState × Option String :=
  let voice_input := get_voice_input o
  if voice_input = "" then (s, none)
  else
    match chat with
    | .success resp =>
        ({ s with chat_history := s.chat_history ++ [⟨voice_input, resp⟩] }, none)
    | .failure err => (s, some ("⚠️ Error: " ++ err))

/-- `display_chat_statistics()`: rendered only when `start_time` is set
(None is falsy); shows the message count `len(chat_history)` and the
duration since `start_time`.  `none` means the panel is not displayed. -/
def display_chat_statistics (now : Nat) (s : SessionState) : Option (Nat × Nat) :=
  match s.start_time with
  | none => none
  | some t0 => some (s.chat_history.length, now - t0)

/-- `langchain` `ConversationBufferWindowMemory(k=memory_length)`: keeps a
buffer of saved turns and replays the last `k` of them as context. -/
structure BufferWindowMemory where
  k : Nat
  buffer : List Turn
deriving DecidableEq, Repr

/-- `memory.save_context({'input': ...}, {'output': ...})`: append one
turn to the buffer. -/
def save_context (m : BufferWindowMemory) (input output : String) :
    BufferWindowMemory :=
  { m with buffer := m.buffer ++ [⟨input, output⟩] }

/-- Loading the memory variables for the next request: the window memory
supplies the last `k` saved turns (all of them when fewer than `k`). -/
def load_memory (m : BufferWindowMemory) : List Turn :=
  m.buffer.drop (m.buffer.length - m.k)

/-- The `for message in st.session_state.chat_history: memory.save_context(...)`
loop of `main`: rebuild the window memory from the transcript each run. -/
def loadHistory (k : Nat) (history : List Turn) : BufferWindowMemory :=
  history.foldl (fun m t => save_context m t.human t.AI) { k := k, buffer := [] }

/-- The conversational context replayed into the next chat request for a
given window size and transcript. -/
def replayContext (k : Nat) (history : List Turn) : List Turn :=
  load_memory (loadHistory k history)

/-- The persona dict of `get_custom_prompt`: label to prompt template
(templates reproduced with the literal indentation of the source). -/
def personas (p : String) : Option String :=
  if p = "Default" then some ("You are a helpful AI assistant.\n                     Current conversation:\n                     {history}\n                     Human: {input}\n                     AI:")
  else if p = "Expert" then some ("You are an expert consultant with deep knowledge across multiple fields.\n                    Please provide detailed, technical responses when appropriate.\n                    Current conversation:\n                    {history}\n                    Human: {input}\n                    Expert:")
  else if p = "Creative" then some ("You are a creative and imaginative AI that thinks outside the box.\n                      Feel free to use metaphors and analogies in your responses.\n                      Current conversation:\n                      {history}\n                      Human: {input}\n                      Creative AI:")
  else none

/-- `get_custom_prompt()`: look the currently selected persona up in the
dict (the selectbox restricts it to the three labels). -/
def get_custom_prompt (selected_persona : String) : Option String :=
  personas selected_persona

/-- The request assembled for the chat service on the next send: the
currently selected model, the template of the currently selected persona,
the replayed window of the transcript, and the new input. -/
structure ChatRequest where
  model : String
  promptTemplate : Option String
  context : List Turn
  input : String
deriving DecidableEq, Repr

/-- Build the next chat request from the current selections and state. -/
def buildRequest (model selected_persona : String) (k : Nat)
    (history : List Turn) (input : String) : ChatRequest :=
  { model := model, promptTemplate := get_custom_prompt selected_persona,
    context := replayContext k history, input := input }

/-- What the transcript loop of `main` renders for one stored turn:
the human label and text (`st.info(message['human'])`), the assistant
label `🤖 Assistant ({selected_persona} mode)`, the assistant text
(`st.success(message['AI'])`), and the text passed to `text_to_audio`
(the audio is a pure function of that text, language fixed to en). -/
structure RenderedTurn where
  humanLabel : String
  humanText : String
  aiLabel : String
  aiText : String
  audioText : String
deriving DecidableEq, Repr

/-- Render one stored turn under the currently selected persona. -/
def renderTurn (selected_persona : String) (t : Turn) : RenderedTurn :=
  { humanLabel := "👤 You",
    humanText := t.human,
    aiLabel := "🤖 Assistant (" ++ selected_persona ++ " mode)",
    aiText := t.AI,
    audioText := t.AI }

/-- State of one script run: the session state together with the window
memory object built for this run. -/
structure RunState where
  session : SessionState
  memory : BufferWindowMemory
deriving DecidableEq, Repr

/-- Start of a script run: the memory is rebuilt from the transcript. -/
def startRun (k : Nat) (s : SessionState) : RunState :=
  { session := s, memory := loadHistory k s.chat_history }

/-- The `New Topic` button handler: `memory.clear()` empties the window
memory buffer; the session state (in particular `chat_history`) is not
touched. -/
def newTopicClick (r : RunState) : RunState :=
  { r with memory := { r.memory with buffer := [] } }

/-- The UI-triggered operations on a run state. -/
inductive Event where
  | typeInput (text : String)
  | sendText (now : Nat) (chat : ChatResult)
  | sendVoice (o : VoiceOutcome) (chat : ChatResult)
  | newTopic
  | setPersona (p : String)
  | setModel (m : String)
  | clearHistory
deriving DecidableEq, Repr

/-- Apply one UI operation.  `setModel` touches no session state: the
model choice is a plain widget variable used only when the next request
is built. -/
def applyEvent (e : Event) (r : RunState) : RunState :=
  match e with
  | .typeInput t => { r with session := { r.session with user_input := t } }
  | .sendText now chat => { r with session := (sendClick now r.session chat).1 }
  | .sendVoice o chat => { r with session := (voiceClick r.session o chat).1 }
  | .newTopic => newTopicClick r
  | .setPersona p => { r with session := { r.session with selected_persona := p } }
  | .setModel _ => r
  | .clearHistory => { r with session := clearClick r.session }

/-- A sequence of successful text sends: each one types the input into
the text area and clicks `Send`, with the chat service returning the
paired response. -/
def runTextSends (now : Nat) (s : SessionState)
    (sends : List (String × String)) : SessionState :=
  sends.foldl
    (fun st p => (sendClick now { st with user_input := p.1 } (ChatResult.success p.2)).1)
    s

/-- A sequence of successful voice sends: each one captures the given
text and the chat service returns the paired response. -/
def runVoiceSends (s : SessionState) (sends : List (String × String)) :
    SessionState :=
  sends.foldl
    (fun st p => (voiceClick st (VoiceOutcome.success p.1) (ChatResult.success p.2)).1)
    s

/-! Helper lemmas. -/

@[simp]
theorem turn_eta (t : Turn) : Turn.mk t.human t.AI = t := rfl

theorem loadHistory_spec (k : Nat) (h : List Turn) :
    loadHistory k h = { k := k, buffer := h } := by
  have aux : ∀ (l : List Turn) (m : BufferWindowMemory),
      l.foldl (fun m t => save_context m t.human t.AI) m
        = { k := m.k, buffer := m.buffer ++ l } := by
    intro l
    induction l with
    | nil => intro m; simp
    | cons t l ih => intro m; rw [List.foldl_cons, ih]; simp [save_context]
  simp [loadHistory, aux]

theorem replayContext_eq (k : Nat) (h : List Turn) :
    replayContext k h = h.drop (h.length - k) := by
  simp [replayContext, load_memory, loadHistory_spec]

theorem sendClick_success_history (now : Nat) (s : SessionState) (resp : String)
    (h : pyStrip s.user_input ≠ "") :
    (sendClick now s (ChatResult.success resp)).1.chat_history
      = s.chat_history ++ [⟨s.user_input, resp⟩] := by
  unfold sendClick
  rw [if_neg h]
  by_cases h2 : s.start_time = none <;> simp [h2]

theorem sendClick_history_extends (now : Nat) (s : SessionState) (chat : ChatResult) :
    ∃ tail, (sendClick now s chat).1.chat_history = s.chat_history ++ tail := by
  by_cases h : pyStrip s.user_input = ""
  · exact ⟨[], by simp [sendClick, h]⟩
  · cases chat with
    | success resp =>
        exact ⟨[⟨s.user_input, resp⟩], sendClick_success_history now s resp h⟩
    | failure err =>
        refine ⟨[], ?_⟩
        unfold sendClick
        rw [if_neg h]
        by_cases h2 : s.start_time = none <;> simp [h2]

theorem voiceClick_history_extends (s : SessionState) (o : VoiceOutcome)
    (chat : ChatResult) :
    ∃ tail, (voiceClick s o chat).1.chat_history = s.chat_history ++ tail := by
  by_cases h : get_voice_input o = ""
  · exact ⟨[], by simp [voiceClick, h]⟩
  · cases chat with
    | success resp => exact ⟨[⟨get_voice_input o, resp⟩], by simp [voiceClick, h]⟩
    | failure err => exact ⟨[], by simp [voiceClick, h]⟩

theorem voiceClick_start_time (s : SessionState) (o : VoiceOutcome) (chat : ChatResult) :
    (voiceClick s o chat).1.start_time = s.start_time := by
  unfold voiceClick
  by_cases h : get_voice_input o = "" <;> cases chat <;> simp [h]

theorem runVoiceSends_start_time (sends : List (String × String)) :
    ∀ s : SessionState, (runVoiceSends s sends).start_time = s.start_time := by
  induction sends with
  | nil => intro s; rfl
  | cons p rest ih =>
      intro s
      show (runVoiceSends ((voiceClick s (VoiceOutcome.success p.1)
        (ChatResult.success p.2)).1) rest).start_time = s.start_time
      rw [ih, voiceClick_start_time]

theorem runTextSends_history (now : Nat) (sends : List (String × String)) :
    ∀ s : SessionState, (∀ p ∈ sends, pyStrip p.1 ≠ "") →
      (runTextSends now s sends).chat_history
        = s.chat_history ++ sends.map (fun p => Turn.mk p.1 p.2) := by
  induction sends with
  | nil => intro s _; simp [runTextSends]
  | cons p rest ih =>
      intro s hne
      have hp : pyStrip p.1 ≠ "" := hne p (by simp)
      have hrest : ∀ q ∈ rest, pyStrip q.1 ≠ "" := fun q hq => hne q (by simp [hq])
      show (runTextSends now ((sendClick now { s with user_input := p.1 }
        (ChatResult.success p.2)).1) rest).chat_history = _
      rw [ih _ hrest, sendClick_success_history now { s with user_input := p.1 } p.2 hp]
      simp

/-! The claims. -/

/-- C1: for every sequence of successful text sends (nonempty stripped
input, chat service returning a response), the transcript after the Nth
send has exactly N turns, in submission order, each pairing the submitted
human text with the returned assistant text. -/
theorem transcript_after_successful_sends (now : Nat)
    (sends : List (String × String)) (hne : ∀ p ∈ sends, pyStrip p.1 ≠ "") :
    (runTextSends now initial_state sends).chat_history
      = sends.map (fun p => Turn.mk p.1 p.2) ∧
    (runTextSends now initial_state sends).chat_history.length = sends.length := by
  have h := runTextSends_history now sends initial_state hne
  simp only [show initial_state.chat_history = [] from rfl, List.nil_append] at h
  exact ⟨h, by rw [h]; simp⟩

/-- C1 witness: two concrete sends. -/
theorem transcript_after_successful_sends_witness :
    (runTextSends 0 initial_state [("hi", "hello"), ("how", "fine")]).chat_history
      = [("hi", "hello"), ("how", "fine")].map (fun p => Turn.mk p.1 p.2) ∧
    (runTextSends 0 initial_state [("hi", "hello"), ("how", "fine")]).chat_history.length
      = ([("hi", "hello"), ("how", "fine")] : List (String × String)).length :=
  transcript_after_successful_sends 0 [("hi", "hello"), ("how", "fine")] (by decide)

/-- C2: for every transcript and configured window size k (1..10), the
context replayed into the next chat request is exactly the last
min(T, k) turns of the transcript, in original order; in particular with
window 2 and turns [(A1,B1),(A2,B2),(A3,B3)] the context is exactly
[(A2,B2),(A3,B3)]. -/
theorem replay_context_is_last_window (k : Nat) (h : List Turn)
    (hk1 : 1 ≤ k) (hk10 : k ≤ 10) :
    (replayContext k h).length = min h.length k ∧
    h.take (h.length - k) ++ replayContext k h = h ∧
    replayContext 2 [Turn.mk "A1" "B1", Turn.mk "A2" "B2", Turn.mk "A3" "B3"]
      = [Turn.mk "A2" "B2", Turn.mk "A3" "B3"] := by
  refine ⟨?_, ?_, ?_⟩
  · rw [replayContext_eq, List.length_drop]
    omega
  · rw [replayContext_eq, List.take_append_drop]
  · rw [replayContext_eq]
    rfl

/-- C2 witness: window 5 over a one-turn transcript. -/
theorem replay_context_is_last_window_witness :
    (replayContext 5 [Turn.mk "x" "y"]).length
      = min ([Turn.mk "x" "y"] : List Turn).length 5 ∧
    ([Turn.mk "x" "y"] : List Turn).take (([Turn.mk "x" "y"] : List Turn).length - 5)
      ++ replayContext 5 [Turn.mk "x" "y"] = [Turn.mk "x" "y"] ∧
    replayContext 2 [Turn.mk "A1" "B1", Turn.mk "A2" "B2", Turn.mk "A3" "B3"]
      = [Turn.mk "A2" "B2", Turn.mk "A3" "B3"] :=
  replay_context_is_last_window 5 [Turn.mk "x" "y"] (by decide) (by decide)

/-- C3: when the chat-completion call fails during a send that was
actually attempted (text send with nonempty stripped input, or voice send
with nonempty recognized text), the transcript is unchanged afterwards
(same turns) and an inline error message is shown; the handler returns
normally (it is a total function), so the process does not terminate and
there is no retry or partial state. -/
theorem chat_failure_leaves_transcript (now : Nat) (s : SessionState)
    (err : String) (o : VoiceOutcome)
    (hs : pyStrip s.user_input ≠ "") (ho : get_voice_input o ≠ "") :
    (sendClick now s (ChatResult.failure err)).1.chat_history = s.chat_history ∧
    (sendClick now s (ChatResult.failure err)).2 = some ("⚠️ Error: " ++ err) ∧
    (voiceClick s o (ChatResult.failure err)).1.chat_history = s.chat_history ∧
    (voiceClick s o (ChatResult.failure err)).2 = some ("⚠️ Error: " ++ err) := by
  refine ⟨?_, ?_, ?_, ?_⟩
  · unfold sendClick
    rw [if_neg hs]
    by_cases h2 : s.start_time = none <;> simp [h2]
  · unfold sendClick
    rw [if_neg hs]
  · simp [voiceClick, ho]
  · simp [voiceClick, ho]

/-- C3 witness: a failing chat call after typing hi, and after a voice
capture recognizing yo. -/
theorem chat_failure_leaves_transcript_witness :
    (sendClick 0 { initial_state with user_input := "hi" }
        (ChatResult.failure "boom")).1.chat_history
      = ({ initial_state with user_input := "hi" } : SessionState).chat_history ∧
    (sendClick 0 { initial_state with user_input := "hi" }
        (ChatResult.failure "boom")).2 = some ("⚠️ Error: " ++ "boom") ∧
    (voiceClick { initial_state with user_input := "hi" }
        (VoiceOutcome.success "yo") (ChatResult.failure "boom")).1.chat_history
      = ({ initial_state with user_input := "hi" } : SessionState).chat_history ∧
    (voiceClick { initial_state with user_input := "hi" }
        (VoiceOutcome.success "yo") (ChatResult.failure "boom")).2
      = some ("⚠️ Error: " ++ "boom") :=
  chat_failure_leaves_transcript 0 { initial_state with user_input := "hi" }
    "boom" (VoiceOutcome.success "yo") (by decide) (by decide)

/-- C4: the voice-input adapter returns the empty string for each of the
three speech-recognition failure modes (listen timeout, unintelligible
audio, service request failure) and the recognized text on success; it is
a total function, so no exception escapes it. -/
theorem voice_adapter_failures_yield_empty (t e : String) :
    get_voice_input (VoiceOutcome.success t) = t ∧
    get_voice_input VoiceOutcome.waitTimeout = "" ∧
    get_voice_input VoiceOutcome.unknownValue = "" ∧
    get_voice_input (VoiceOutcome.requestError e) = "" :=
  ⟨rfl, rfl, rfl, rfl⟩

/-- C5: from every prior session state, the clear-history action resets
the transcript to the empty sequence and the start timer to unset. -/
theorem clear_resets_transcript_and_timer (s : SessionState) :
    (clearClick s).chat_history = [] ∧ (clearClick s).start_time = none :=
  ⟨rfl, rfl⟩

/-- C6 counterexample: the transcript view rendering of an already stored
turn is NOT unaffected by the persona selection — the assistant label
above each past turn displays the currently selected persona, so the same
stored turn renders differently under Default and Expert. -/
theorem render_of_stored_turn_depends_on_persona :
    renderTurn "Default" (Turn.mk "hi" "hello")
      ≠ renderTurn "Expert" (Turn.mk "hi" "hello") := by
  decide

/-- C6 amended: changing the persona or model leaves the stored turns
themselves untouched and leaves each stored turn's displayed text content
and synthesized audio unaffected, and the selections enter only the next
request (its prompt template and model); however the assistant label
rendered above each past turn shows the currently selected persona, so
the on-screen rendering of past turns does change with that label. -/
theorem persona_model_affect_only_new_requests (p q model : String)
    (t : Turn) (r : RunState) (k : Nat) (inp : String) :
    (applyEvent (Event.setPersona p) r).session.chat_history
      = r.session.chat_history ∧
    applyEvent (Event.setModel model) r = r ∧
    (renderTurn p t).humanText = (renderTurn q t).humanText ∧
    (renderTurn p t).aiText = (renderTurn q t).aiText ∧
    (renderTurn p t).audioText = (renderTurn q t).audioText ∧
    (buildRequest model p k r.session.chat_history inp).promptTemplate
      = get_custom_prompt p ∧
    (buildRequest model p k r.session.chat_history inp).model = model :=
  ⟨rfl, rfl, rfl, rfl, rfl, rfl, rfl⟩

/-- C7: the new-topic action empties the replay memory buffer, so the
memory no longer supplies prior turns as context, while the session state
(in particular the visible transcript with every appended turn) is
unchanged. -/
theorem new_topic_clears_only_memory (r : RunState) :
    (newTopicClick r).session = r.session ∧
    (newTopicClick r).session.chat_history = r.session.chat_history ∧
    (newTopicClick r).memory.buffer = [] ∧
    load_memory (newTopicClick r).memory = [] := by
  refine ⟨rfl, rfl, rfl, ?_⟩
  simp [newTopicClick, load_memory]

/-- C8: every transcript turn is immutable once appended: each UI
operation either extends the transcript (existing turns preserved in
place, in order) or is the clear action, which removes the entire
transcript. -/
theorem turns_immutable_once_appended (r : RunState) (e : Event) :
    (∃ tail, (applyEvent e r).session.chat_history
      = r.session.chat_history ++ tail) ∨
    (e = Event.clearHistory ∧ (applyEvent e r).session.chat_history = []) := by
  cases e with
  | typeInput t => exact Or.inl ⟨[], by simp [applyEvent]⟩
  | sendText now chat =>
      exact Or.inl (sendClick_history_extends now r.session chat)
  | sendVoice o chat =>
      exact Or.inl (voiceClick_history_extends r.session o chat)
  | newTopic => exact Or.inl ⟨[], by simp [applyEvent, newTopicClick]⟩
  | setPersona p => exact Or.inl ⟨[], by simp [applyEvent]⟩
  | setModel m => exact Or.inl ⟨[], by simp [applyEvent]⟩
  | clearHistory => exact Or.inr ⟨rfl, by simp [applyEvent, clearClick]⟩

/-- C9: a send whose text input strips to empty is a no-op on the session
(state unchanged, timer not set, no error shown), independently of the
chat-service outcome — so no chat request is observable; likewise a voice
capture yielding the empty string appends nothing. -/
theorem empty_input_send_is_noop (now : Nat) (s : SessionState)
    (chat : ChatResult) (o : VoiceOutcome)
    (hs : pyStrip s.user_input = "") (ho : get_voice_input o = "") :
    sendClick now s chat = (s, none) ∧ voiceClick s o chat = (s, none) := by
  constructor
  · unfold sendClick
    rw [if_pos hs]
  · simp [voiceClick, ho]

/-- C9 witness: text input of one non-breaking space (U+00A0, stripped to
empty by the guard) and an unintelligible voice capture. -/
theorem empty_input_send_is_noop_witness :
    sendClick 0 { initial_state with user_input := "\u00A0" } (ChatResult.success "r")
      = ({ initial_state with user_input := "\u00A0" }, none) ∧
    voiceClick { initial_state with user_input := "\u00A0" }
        VoiceOutcome.unknownValue (ChatResult.success "r")
      = ({ initial_state with user_input := "\u00A0" }, none) :=
  empty_input_send_is_noop 0 { initial_state with user_input := "\u00A0" }
    (ChatResult.success "r") VoiceOutcome.unknownValue (by decide) rfl

/-- C10: only the text-send path sets the start timestamp (on the first
send whose input strips nonempty); the voice path never touches it, so a
session of only successful voice sends keeps the timer unset and the
chat-statistics panel is never displayed. -/
theorem voice_sends_never_set_timer (now : Nat) (s : SessionState)
    (o : VoiceOutcome) (chat : ChatResult) (sends : List (String × String))
    (hs : pyStrip s.user_input ≠ "") :
    (voiceClick s o chat).1.start_time = s.start_time ∧
    (runVoiceSends initial_state sends).start_time = none ∧
    display_chat_statistics now (runVoiceSends initial_state sends) = none ∧
    (sendClick now s chat).1.start_time
      = (if s.start_time = none then some now else s.start_time) := by
  have hrun : (runVoiceSends initial_state sends).start_time = none :=
    runVoiceSends_start_time sends initial_state
  refine ⟨voiceClick_start_time s o chat, hrun, ?_, ?_⟩
  · simp [display_chat_statistics, hrun]
  · unfold sendClick
    rw [if_neg hs]
    cases chat <;> by_cases h2 : s.start_time = none <;> simp [h2]

/-- C10 witness: one voice-only session and one first text send. -/
theorem voice_sends_never_set_timer_witness :
    (voiceClick { initial_state with user_input := "hi" } VoiceOutcome.waitTimeout
        (ChatResult.success "r")).1.start_time
      = ({ initial_state with user_input := "hi" } : SessionState).start_time ∧
    (runVoiceSends initial_state [("v", "w")]).start_time = none ∧
    display_chat_statistics 7 (runVoiceSends initial_state [("v", "w")]) = none ∧
    (sendClick 7 { initial_state with user_input := "hi" }
        (ChatResult.success "r")).1.start_time
      = (if ({ initial_state with user_input := "hi" } : SessionState).start_time = none
          then some 7
          else ({ initial_state with user_input := "hi" } : SessionState).start_time) :=
  voice_sends_never_set_timer 7 { initial_state with user_input := "hi" }
    VoiceOutcome.waitTimeout (ChatResult.success "r") [("v", "w")] (by decide)

end ChatBot
